import Mathlib

/-!
# mtk_led: register-level platform driver

Shallow embedding of `mtk_led.c` and its register header.

* Machine integers are `Nat`/`Int` with explicit wrap-around (`% 2 ^ 64`).
* The three collaborators reached through `struct mtk_led` (`regmap`, `clk`,
  `dev`) are represented by the list of calls the driver made on each of them,
  oldest call first.
* `spin_lock_irqsave` on a lock that is already held does not return when the
  caller runs alone, hence the sequential operations return `Option`.
* Values the environment supplies (register contents, clock readings, return
  codes of kernel services) are explicit arguments.
-/

namespace MtkLed

/-! ## Register header -/

/-- Kernel `BIT(n)`. -/
def BIT (n : Nat) : Nat := 2 ^ n

def LED_CTRL_REG : Nat := 0x00
def LED_STATUS_REG : Nat := 0x04
def LED_TOGGLE_REG : Nat := 0x08
def LED_INT_STATUS : Nat := 0x0C
def LED_INT_ENABLE : Nat := 0x10

def LED_ENABLE_BIT : Nat := BIT 0
def LED_INT_BIT : Nat := BIT 0

/-! ## Machine integers and kernel constants -/

/-- Conversion of an integer to `u64` (wrap-around). -/
def u64 (x : Int) : Nat := (x % 2 ^ 64).toNat

/-- Conversion of a `size_t` to `ssize_t` (two's complement reinterpretation). -/
def ssize_t (x : Nat) : Int :=
  if x % 2 ^ 64 < 2 ^ 63 then ((x % 2 ^ 64 : Nat) : Int) else ((x % 2 ^ 64 : Nat) : Int) - 2 ^ 64

/-- Unsigned 64-bit division; a zero divisor traps, which is `none`. -/
def udiv64 (a b : Nat) : Option Nat := if b = 0 then none else some (a / b)

def ENOMEM : Int := 12
def EINVAL : Int := 22
def MAX_ERRNO : Int := 4095

/-- Kernel `IS_ERR`: the pointer value, read as a signed long, lies in `[-MAX_ERRNO, -1]`. -/
def IS_ERR (p : Int) : Bool := decide (-MAX_ERRNO ≤ p ∧ p < 0)

/-- Kernel `PTR_ERR`. -/
def PTR_ERR (p : Int) : Int := p

/-- Values of `irqreturn_t`. -/
inductive irqreturn_t where
  | IRQ_NONE
  | IRQ_HANDLED
  | IRQ_WAKE_THREAD
  deriving DecidableEq, Repr

/-! ## Collaborator call logs -/

/-- One access made through `led->regmap`. -/
inductive RegOp where
  | read (reg val : Nat)
  | write (reg val : Nat)
  deriving DecidableEq, Repr

/-- One call made on `led->clk`; `prepare_enable` carries the value it returned. -/
inductive ClkOp where
  | prepare_enable (rc : Int)
  | disable_unprepare
  deriving DecidableEq, Repr

/-- One call made on the device (`led->dev`, `&pdev->dev`). -/
inductive DevOp where
  | pm_runtime_get_sync (rc : Int)
  | pm_runtime_put
  | pm_runtime_enable
  | pm_runtime_disable
  | set_drvdata
  | create_file (rc : Int)
  | remove_file
  deriving DecidableEq, Repr

/-- Model of `struct mtk_led`.  `lock` is the spinlock (held / released);
`regmap`, `clk` and `dev` hold the calls made on the respective collaborator. -/
structure mtk_led where
  dev : List DevOp
  regmap : List RegOp
  clk : List ClkOp
  irq : Int
  lock : Bool
  toggle_count : Nat
  total_latency_ns : Nat
  deriving DecidableEq, Repr

/-- The object as `devm_kzalloc` + `spin_lock_init` leave it. -/
def kzalloc_led : mtk_led :=
  { dev := [], regmap := [], clk := [], irq := 0, lock := false,
    toggle_count := 0, total_latency_ns := 0 }

/-! ## Kernel services used by the driver -/

/-- Acquire the spinlock; spins for ever (`none`) when it is held and nobody else runs. -/
def spin_lock_irqsave (led : mtk_led) : Option mtk_led :=
  if led.lock then none else some { led with lock := true }

def spin_unlock_irqrestore (led : mtk_led) : mtk_led :=
  { led with lock := false }

/-- Write of a 32-bit value through the regmap. -/
def regmap_write (led : mtk_led) (reg val : Nat) : mtk_led :=
  { led with regmap := led.regmap ++ [RegOp.write reg (val % 2 ^ 32)] }

/-- Read through the regmap; `hw` is what the device delivers, the result is a `u32`. -/
def regmap_read (led : mtk_led) (reg hw : Nat) : Nat × mtk_led :=
  (hw % 2 ^ 32, { led with regmap := led.regmap ++ [RegOp.read reg (hw % 2 ^ 32)] })

/-- The call returns `rc`, supplied by the clock framework. -/
def clk_prepare_enable (led : mtk_led) (rc : Int) : Int × mtk_led :=
  (rc, { led with clk := led.clk ++ [ClkOp.prepare_enable rc] })

def clk_disable_unprepare (led : mtk_led) : mtk_led :=
  { led with clk := led.clk ++ [ClkOp.disable_unprepare] }

def pm_runtime_get_sync (led : mtk_led) (rc : Int) : Int × mtk_led :=
  (rc, { led with dev := led.dev ++ [DevOp.pm_runtime_get_sync rc] })

def pm_runtime_put (led : mtk_led) : mtk_led :=
  { led with dev := led.dev ++ [DevOp.pm_runtime_put] }

def ktime_sub (a b : Int) : Int := a - b

def ktime_to_ns (k : Int) : Int := k

/-! ## Interrupt handler -/

/-- Source `mtk_led_irq`; `hw_status` is the content of the interrupt-status register. -/
def mtk_led_irq (led : mtk_led) (hw_status : Nat) : Option (irqreturn_t × mtk_led) :=
  match spin_lock_irqsave led with
  | none => none
  | some led1 =>
    let (status, led2) := regmap_read led1 LED_INT_STATUS hw_status
    let led3 :=
      if status &&& LED_INT_BIT ≠ 0 then regmap_write led2 LED_INT_STATUS LED_INT_BIT
      else led2
    let led4 := spin_unlock_irqrestore led3
    some (irqreturn_t.IRQ_HANDLED, led4)

/-! ## Status report and toggle -/

/-- What `toggle_show` hands to `sprintf`, and the text it produces. -/
structure Report where
  count : Nat
  avg : Nat
  buf : String
  deriving DecidableEq, Repr

/-- Source `toggle_show`: the report and the state it leaves (the value returned by the
function is the length of `buf`). -/
def toggle_show (led : mtk_led) : Option (Report × mtk_led) :=
  let count := led.toggle_count
  let avg : Option Nat :=
    if led.toggle_count ≠ 0 then udiv64 led.total_latency_ns led.toggle_count else some 0
  match avg with
  | none => none
  | some a =>
    some ({ count := count, avg := a,
            buf := "Toggles: " ++ toString count ++ "\nAvg latency(ns): " ++ toString a ++ "\n" },
          led)

/-- What the environment supplies to one call of `toggle_store`. -/
structure StoreCall where
  /-- the value `pm_runtime_get_sync` returns (negative: activation failed) -/
  pm_rc : Int
  /-- first `ktime_get()` -/
  start : Int
  /-- second `ktime_get()` -/
  stop : Int
  /-- the `count` argument -/
  count : Nat
  deriving DecidableEq, Repr

/-- The duration the call measures. -/
def StoreCall.dur (c : StoreCall) : Int := ktime_to_ns (ktime_sub c.stop c.start)

/-- Source `toggle_store`. -/
def toggle_store (led : mtk_led) (c : StoreCall) : Option (Int × mtk_led) :=
  let led1 := (pm_runtime_get_sync led c.pm_rc).2
  let start := c.start
  match spin_lock_irqsave led1 with
  | none => none
  | some led2 =>
    let led3 := regmap_write led2 LED_TOGGLE_REG 1
    let led4 := spin_unlock_irqrestore led3
    let stop := c.stop
    let led5 := { led4 with toggle_count := (led4.toggle_count + 1) % 2 ^ 64 }
    let led6 := { led5 with
      total_latency_ns := u64 ((led5.total_latency_ns : Int) + ktime_to_ns (ktime_sub stop start)) }
    let led7 := pm_runtime_put led6
    some (ssize_t c.count, led7)

/-- Successive calls of `toggle_store`, each started after the previous one returned. -/
def run_toggles (led : mtk_led) : List StoreCall → Option mtk_led
  | [] => some led
  | c :: cs =>
    match toggle_store led c with
    | none => none
    | some (_, led1) => run_toggles led1 cs

/-- Successive runs of the interrupt handler. -/
def run_irqs (led : mtk_led) : List Nat → Option mtk_led
  | [] => some led
  | s :: ss =>
    match mtk_led_irq led s with
    | none => none
    | some (_, led1) => run_irqs led1 ss

/-! ## Bind, unbind, suspend, resume -/

/-- What the platform and the kernel services answer during one run of `mtk_led_probe`.
Pointer results are given as the signed value of the pointer. -/
structure ProbeEnv where
  /-- result of `devm_kzalloc` (`0` is `NULL`) -/
  led : Int
  /-- result of `devm_ioremap_resource` -/
  base : Int
  /-- result of `devm_regmap_init_mmio` -/
  regmap : Int
  /-- result of `devm_clk_get` -/
  clk : Int
  /-- value returned by `clk_prepare_enable` -/
  clk_enable_rc : Int
  /-- result of `platform_get_irq` -/
  irq : Int
  /-- value returned by `devm_request_irq` -/
  request_irq_rc : Int
  /-- value returned by `device_create_file` -/
  create_file_rc : Int
  deriving DecidableEq, Repr

def platform_set_drvdata (led : mtk_led) : mtk_led :=
  { led with dev := led.dev ++ [DevOp.set_drvdata] }

def device_create_file (led : mtk_led) (rc : Int) : Int × mtk_led :=
  (rc, { led with dev := led.dev ++ [DevOp.create_file rc] })

def device_remove_file (led : mtk_led) : mtk_led :=
  { led with dev := led.dev ++ [DevOp.remove_file] }

def pm_runtime_enable (led : mtk_led) : mtk_led :=
  { led with dev := led.dev ++ [DevOp.pm_runtime_enable] }

def pm_runtime_disable (led : mtk_led) : mtk_led :=
  { led with dev := led.dev ++ [DevOp.pm_runtime_disable] }

/-- Source `mtk_led_probe`: the value returned and the object as the function leaves it
(`none` when the allocation itself failed). -/
def mtk_led_probe (env : ProbeEnv) : Int × Option mtk_led :=
  if env.led = 0 then (-ENOMEM, none)
  else
    let led0 := kzalloc_led
    if IS_ERR env.base then (PTR_ERR env.base, some led0)
    else if IS_ERR env.regmap then (PTR_ERR env.regmap, some led0)
    else if IS_ERR env.clk then (PTR_ERR env.clk, some led0)
    else
      let led1 := (clk_prepare_enable led0 env.clk_enable_rc).2
      let led2 := { led1 with irq := env.irq }
      if led2.irq < 0 then (led2.irq, some led2)
      else if env.request_irq_rc ≠ 0 then (-EINVAL, some led2)
      else
        let led3 := regmap_write led2 LED_INT_ENABLE LED_INT_BIT
        let led4 := platform_set_drvdata led3
        let led5 := (device_create_file led4 env.create_file_rc).2
        let led6 := pm_runtime_enable led5
        (0, some led6)

/-- Source `mtk_led_remove`. -/
def mtk_led_remove (led : mtk_led) : Int × mtk_led :=
  let led1 := device_remove_file led
  let led2 := clk_disable_unprepare led1
  let led3 := pm_runtime_disable led2
  (0, led3)

/-- Source `mtk_led_suspend`. -/
def mtk_led_suspend (led : mtk_led) : Int × mtk_led :=
  (0, clk_disable_unprepare led)

/-- Source `mtk_led_resume`; `rc` is what `clk_prepare_enable` returns. -/
def mtk_led_resume (led : mtk_led) (rc : Int) : Int × mtk_led :=
  clk_prepare_enable led rc

/-! ## Observations on the call logs -/

/-- Calls of `clk_prepare_enable` minus calls of `clk_disable_unprepare`. -/
def clk_balance : List ClkOp → Int
  | [] => 0
  | ClkOp.prepare_enable _ :: l => clk_balance l + 1
  | ClkOp.disable_unprepare :: l => clk_balance l - 1

/-- The register writes among the accesses, as (offset, value) pairs. -/
def reg_writes : List RegOp → List (Nat × Nat)
  | [] => []
  | RegOp.read _ _ :: l => reg_writes l
  | RegOp.write r v :: l => (r, v) :: reg_writes l

/-- The handle has been published with `platform_set_drvdata`. -/
def published (led : mtk_led) : Bool := decide (DevOp.set_drvdata ∈ led.dev)

/-- Every step of `mtk_led_probe` has the successful outcome. -/
def ProbeEnv.all_ok (env : ProbeEnv) : Bool :=
  decide (env.led ≠ 0) && !IS_ERR env.base && !IS_ERR env.regmap && !IS_ERR env.clk &&
  decide (env.clk_enable_rc = 0) && decide (0 ≤ env.irq) && decide (env.request_irq_rc = 0)

/-! ## Lifecycle requests on a bound handle -/

/-- A lifecycle request issued after a successful bind. -/
inductive LifeOp where
  | suspend
  | resume (rc : Int)
  | unbind
  deriving DecidableEq, Repr

/-- The driver function each request runs. -/
def life_step (led : mtk_led) : LifeOp → mtk_led
  | LifeOp.suspend => (mtk_led_suspend led).2
  | LifeOp.resume rc => (mtk_led_resume led rc).2
  | LifeOp.unbind => (mtk_led_remove led).2

def life_run (led : mtk_led) (ops : List LifeOp) : mtk_led :=
  ops.foldl life_step led

/-- Every clock operation among the requests succeeds. -/
def LifeOp.clock_ok : LifeOp → Bool
  | LifeOp.resume rc => decide (rc = 0)
  | _ => true

/-- Lifecycle states of the specification. -/
inductive LifeState where
  | Unbound
  | Active
  | Suspended
  deriving DecidableEq, Repr

/-- The specification's lifecycle state machine, the yardstick the request sequences are
measured against (the driver keeps no such state).  `unbind_suspended` tells whether unbind is
accepted from `Suspended`. -/
def spec_next (unbind_suspended : Bool) : LifeState → LifeOp → Option LifeState
  | LifeState.Active, LifeOp.suspend => some LifeState.Suspended
  | LifeState.Suspended, LifeOp.resume rc =>
    some (if rc = 0 then LifeState.Active else LifeState.Suspended)
  | LifeState.Active, LifeOp.unbind => some LifeState.Unbound
  | LifeState.Suspended, LifeOp.unbind =>
    if unbind_suspended then some LifeState.Unbound else none
  | _, _ => none

def spec_run (unbind_suspended : Bool) (st : LifeState) : List LifeOp → Option LifeState
  | [] => some st
  | op :: ops =>
    match spec_next unbind_suspended st op with
    | none => none
    | some st1 => spec_run unbind_suspended st1 ops

/-! ## Toggle and status report as sequences of steps -/

/-- Program points of `toggle_store`, one for each call or access to shared state. -/
inductive Pc where
  | pm_get
  | t_start
  | lock
  | write
  | unlock
  | t_end
  | ld_count
  | st_count
  | ld_total
  | st_total
  | pm_put
  | done
  deriving DecidableEq, Repr

/-- One caller inside `toggle_store`: its arguments, program point and locals. -/
structure Thread where
  call : StoreCall
  pc : Pc
  start : Int
  stop : Int
  /-- the value loaded by the pending `++` or `+=` -/
  tmp : Nat
  deriving DecidableEq, Repr

def Thread.init (c : StoreCall) : Thread :=
  { call := c, pc := Pc.pm_get, start := 0, stop := 0, tmp := 0 }

/-- One step of a caller of `toggle_store`.  `none`: the caller cannot move (it waits for
the lock, or it has returned). -/
def store_step (led : mtk_led) (t : Thread) : Option (mtk_led × Thread) :=
  match t.pc with
  | Pc.pm_get => some ((pm_runtime_get_sync led t.call.pm_rc).2, { t with pc := Pc.t_start })
  | Pc.t_start => some (led, { t with start := t.call.start, pc := Pc.lock })
  | Pc.lock =>
    match spin_lock_irqsave led with
    | none => none
    | some led1 => some (led1, { t with pc := Pc.write })
  | Pc.write => some (regmap_write led LED_TOGGLE_REG 1, { t with pc := Pc.unlock })
  | Pc.unlock => some (spin_unlock_irqrestore led, { t with pc := Pc.t_end })
  | Pc.t_end => some (led, { t with stop := t.call.stop, pc := Pc.ld_count })
  | Pc.ld_count => some (led, { t with tmp := led.toggle_count, pc := Pc.st_count })
  | Pc.st_count =>
    some ({ led with toggle_count := (t.tmp + 1) % 2 ^ 64 }, { t with pc := Pc.ld_total })
  | Pc.ld_total => some (led, { t with tmp := led.total_latency_ns, pc := Pc.st_total })
  | Pc.st_total =>
    some ({ led with
            total_latency_ns := u64 ((t.tmp : Int) + ktime_to_ns (ktime_sub t.stop t.start)) },
          { t with pc := Pc.pm_put })
  | Pc.pm_put => some (pm_runtime_put led, { t with pc := Pc.done })
  | Pc.done => none

/-- The step at this program point writes `toggle_count` or `total_latency_ns`. -/
def Pc.counter_write : Pc → Bool
  | Pc.st_count => true
  | Pc.st_total => true
  | _ => false

/-- One caller running alone for at most `fuel` steps. -/
def solo_run : Nat → mtk_led → Thread → mtk_led × Thread
  | 0, led, t => (led, t)
  | fuel + 1, led, t =>
    match store_step led t with
    | none => (led, t)
    | some (led1, t1) => solo_run fuel led1 t1

/-- The steps one caller running alone executes, each with the state of the guard
(`true`: held) at the moment the step starts. -/
def solo_trace : Nat → mtk_led → Thread → List (Pc × Bool)
  | 0, _, _ => []
  | fuel + 1, led, t =>
    match store_step led t with
    | none => []
    | some (led1, t1) => (t.pc, led.lock) :: solo_trace fuel led1 t1

/-- Callers of `toggle_store` interleaved: `sched` names, step by step, the caller that
moves.  `none`: the schedule asks a caller to move that cannot. -/
def run_sched (led : mtk_led) (ts : List Thread) : List Nat → Option (mtk_led × List Thread)
  | [] => some (led, ts)
  | i :: rest =>
    match ts[i]? with
    | none => none
    | some t =>
      match store_step led t with
      | none => none
      | some (led1, t1) => run_sched led1 (ts.set i t1) rest

/-- Program points of `toggle_show`. -/
inductive ShowPc where
  | rd_count
  | test_count
  | rd_div
  | zero
  | fmt
  | done
  deriving DecidableEq, Repr

/-- A reader inside `toggle_show`. -/
structure ShowThread where
  pc : ShowPc
  count : Nat
  avg : Nat
  deriving DecidableEq, Repr

def ShowThread.init : ShowThread := { pc := ShowPc.rd_count, count := 0, avg := 0 }

/-- One step of `toggle_show`; `none`: a division trapped, or the reader has returned. -/
def show_step (led : mtk_led) (t : ShowThread) : Option (mtk_led × ShowThread) :=
  match t.pc with
  | ShowPc.rd_count => some (led, { t with count := led.toggle_count, pc := ShowPc.test_count })
  | ShowPc.test_count =>
    some (led, { t with pc := if led.toggle_count ≠ 0 then ShowPc.rd_div else ShowPc.zero })
  | ShowPc.rd_div =>
    match udiv64 led.total_latency_ns led.toggle_count with
    | none => none
    | some a => some (led, { t with avg := a, pc := ShowPc.fmt })
  | ShowPc.zero => some (led, { t with avg := 0, pc := ShowPc.fmt })
  | ShowPc.fmt => some (led, { t with pc := ShowPc.done })
  | ShowPc.done => none

/-- The step at this program point reads `toggle_count` or `total_latency_ns`. -/
def ShowPc.counter_access : ShowPc → Bool
  | ShowPc.rd_count => true
  | ShowPc.test_count => true
  | ShowPc.rd_div => true
  | _ => false

/-- The steps of one status report, each with the state of the guard when it starts. -/
def show_trace : Nat → mtk_led → ShowThread → List (ShowPc × Bool)
  | 0, _, _ => []
  | fuel + 1, led, t =>
    match show_step led t with
    | none => []
    | some (led1, t1) => (t.pc, led.lock) :: show_trace fuel led1 t1

/-! ## Concrete inputs used by the scenarios -/

/-- Three calls whose measured durations are 100, 200 and 300 ns. -/
def scenario_calls : List StoreCall :=
  [ { pm_rc := 0, start := 0, stop := 100, count := 1 },
    { pm_rc := 0, start := 1000, stop := 1200, count := 1 },
    { pm_rc := 0, start := 5000, stop := 5300, count := 1 } ]

/-- Every step succeeds. -/
def env_ok : ProbeEnv :=
  { led := 0x1000, base := 0x2000, regmap := 0x3000, clk := 0x4000, clk_enable_rc := 0,
    irq := 42, request_irq_rc := 0, create_file_rc := 0 }

/-- Failure at clock resolution: `devm_clk_get` answers `ERR_PTR(-ENOENT)`. -/
def env_clk_get_fails : ProbeEnv := { env_ok with clk := -2 }

/-- Failure at interrupt-line resolution: `platform_get_irq` answers `-ENXIO`. -/
def env_irq_fails : ProbeEnv := { env_ok with irq := -6 }

/-- Failure at handler installation: `devm_request_irq` answers `-EBUSY`. -/
def env_request_irq_fails : ProbeEnv := { env_ok with request_irq_rc := -16 }

/-- Failure of clock prepare+enable: `clk_prepare_enable` answers `-EIO`. -/
def env_clk_enable_fails : ProbeEnv := { env_ok with clk_enable_rc := -5 }

/-- A toggle whose power-state activation fails with `-EACCES`. -/
def call_pm_fails : StoreCall := { pm_rc := -13, start := 1000, stop := 1150, count := 2 }

/-- A toggle with a successful activation and a measured duration of 100 ns. -/
def call_plain : StoreCall := { pm_rc := 0, start := 0, stop := 100, count := 1 }

/-- Two concurrent callers of `toggle_store`. -/
def race_threads : List Thread :=
  [ Thread.init { pm_rc := 0, start := 0, stop := 100, count := 1 },
    Thread.init { pm_rc := 0, start := 10, stop := 210, count := 1 } ]

/-- Caller 0 runs up to and including its load of `toggle_count`, caller 1 then runs
its whole call, caller 0 finishes. -/
def race_sched : List Nat :=
  [0, 0, 0, 0, 0, 0, 0, 1, 1, 1, 1, 1, 1, 1, 1, 1, 1, 1, 0, 0, 0, 0]

/-- Caller 0 runs its whole call, then caller 1 runs its whole call. -/
def serial_sched : List Nat :=
  [0, 0, 0, 0, 0, 0, 0, 0, 0, 0, 0, 1, 1, 1, 1, 1, 1, 1, 1, 1, 1, 1]

/-- The clock balance the specification attaches to each lifecycle state. -/
def spec_balance : LifeState → Int
  | LifeState.Active => 1
  | LifeState.Suspended => 0
  | LifeState.Unbound => 0

end MtkLed

namespace MtkLed

/-! ## Basic facts -/

theorem u64_of_lt (x : Int) (h0 : 0 ≤ x) (h1 : x < 2 ^ 64) : ((u64 x : Nat) : Int) = x := by
  unfold u64
  rw [Int.emod_eq_of_lt h0 h1, Int.toNat_of_nonneg h0]

theorem toggle_store_eq (led : mtk_led) (c : StoreCall) (h : led.lock = false) :
    toggle_store led c = some (ssize_t c.count,
      { dev := led.dev ++ [DevOp.pm_runtime_get_sync c.pm_rc, DevOp.pm_runtime_put],
        regmap := led.regmap ++ [RegOp.write LED_TOGGLE_REG 1],
        clk := led.clk, irq := led.irq, lock := false,
        toggle_count := (led.toggle_count + 1) % 2 ^ 64,
        total_latency_ns := u64 ((led.total_latency_ns : Int) + c.dur) }) := by
  simp [toggle_store, pm_runtime_get_sync, spin_lock_irqsave, h, regmap_write,
    spin_unlock_irqrestore, pm_runtime_put, StoreCall.dur]

theorem run_toggles_nowrap (cs : List StoreCall) :
    ∀ led : mtk_led, led.lock = false → (∀ c ∈ cs, 0 ≤ c.dur) →
      led.toggle_count + cs.length < 2 ^ 64 →
      (led.total_latency_ns : Int) + (cs.map StoreCall.dur).sum < 2 ^ 64 →
      ∃ led1, run_toggles led cs = some led1 ∧ led1.lock = false ∧
        led1.toggle_count = led.toggle_count + cs.length ∧
        (led1.total_latency_ns : Int) = led.total_latency_ns + (cs.map StoreCall.dur).sum := by
  induction cs with
  | nil => intro led h _ _ _; exact ⟨led, rfl, h, by simp, by simp⟩
  | cons c cs ih =>
    intro led hl hd hn hs
    have hc : 0 ≤ c.dur := hd c (List.mem_cons_self _ _)
    have hrest : ∀ x ∈ cs, 0 ≤ x.dur := fun x hx => hd x (List.mem_cons_of_mem _ hx)
    have hsum0 : 0 ≤ (cs.map StoreCall.dur).sum := by
      apply List.sum_nonneg
      intro x hx
      obtain ⟨y, hy, rfl⟩ := List.mem_map.1 hx
      exact hrest y hy
    simp only [List.length_cons, List.map_cons, List.sum_cons] at hn hs
    have hcnt : (led.toggle_count + 1) % 2 ^ 64 = led.toggle_count + 1 :=
      Nat.mod_eq_of_lt (by omega)
    have htot : ((u64 ((led.total_latency_ns : Int) + c.dur) : Nat) : Int)
        = led.total_latency_ns + c.dur :=
      u64_of_lt _ (by omega) (by omega)
    obtain ⟨led2, hst, hl2, hc2, ht2⟩ : ∃ led2, toggle_store led c = some (ssize_t c.count, led2) ∧
        led2.lock = false ∧ led2.toggle_count = (led.toggle_count + 1) % 2 ^ 64 ∧
        led2.total_latency_ns = u64 ((led.total_latency_ns : Int) + c.dur) :=
      ⟨_, toggle_store_eq led c hl, rfl, rfl, rfl⟩
    rw [hcnt] at hc2
    have ht3 : (led2.total_latency_ns : Int) = led.total_latency_ns + c.dur := by
      rw [ht2, htot]
    obtain ⟨led1, h1, h2, h3, h4⟩ := ih led2 hl2 hrest (by omega) (by omega)
    refine ⟨led1, ?_, h2, ?_, ?_⟩
    · simp only [run_toggles, hst, h1]
    · rw [h3, hc2, List.length_cons]; omega
    · rw [h4, ht3, List.map_cons, List.sum_cons]; omega

theorem toggle_show_eq (led : mtk_led) :
    toggle_show led = some
      ({ count := led.toggle_count,
         avg := if led.toggle_count ≠ 0 then led.total_latency_ns / led.toggle_count else 0,
         buf := "Toggles: " ++ toString led.toggle_count ++ "\nAvg latency(ns): " ++
           toString (if led.toggle_count ≠ 0 then led.total_latency_ns / led.toggle_count
             else 0) ++ "\n" }, led) := by
  unfold toggle_show udiv64
  by_cases h : led.toggle_count = 0 <;> simp [h]

theorem mtk_led_irq_eq (led : mtk_led) (s : Nat) (h : led.lock = false) :
    mtk_led_irq led s = some (irqreturn_t.IRQ_HANDLED,
      { led with
        regmap := led.regmap ++ RegOp.read LED_INT_STATUS (s % 2 ^ 32) ::
          (if s % 2 = 1 then [RegOp.write LED_INT_STATUS 1] else []) }) := by
  have hbit : (s % 2 ^ 32) % 2 = s % 2 := Nat.mod_mod_of_dvd s (by norm_num)
  have hand : (s % 2 ^ 32) &&& LED_INT_BIT = s % 2 := by
    simp only [LED_INT_BIT, BIT, pow_zero, Nat.and_one_is_mod, hbit]
  rcases Nat.mod_two_eq_zero_or_one s with h0 | h1
  · simp [mtk_led_irq, spin_lock_irqsave, h, regmap_read, hand, h0, spin_unlock_irqrestore]
    cases led; simp_all
  · simp [mtk_led_irq, spin_lock_irqsave, h, regmap_read, hand, h1, spin_unlock_irqrestore,
      regmap_write, LED_INT_BIT, BIT]
    cases led; simp_all

theorem reg_writes_append (a b : List RegOp) :
    reg_writes (a ++ b) = reg_writes a ++ reg_writes b := by
  induction a with
  | nil => rfl
  | cons x a ih => cases x <;> simp [reg_writes, ih]

theorem run_irqs_frame (ss : List Nat) :
    ∀ led : mtk_led, led.lock = false →
      ∃ led1, run_irqs led ss = some led1 ∧ led1.lock = false ∧
        led1.toggle_count = led.toggle_count ∧
        led1.total_latency_ns = led.total_latency_ns := by
  induction ss with
  | nil => intro led h; exact ⟨led, rfl, h, rfl, rfl⟩
  | cons s ss ih =>
    intro led h
    obtain ⟨led2, hirq, hl2, hc2, ht2⟩ : ∃ led2,
        mtk_led_irq led s = some (irqreturn_t.IRQ_HANDLED, led2) ∧ led2.lock = false ∧
        led2.toggle_count = led.toggle_count ∧
        led2.total_latency_ns = led.total_latency_ns :=
      ⟨_, mtk_led_irq_eq led s h, h, rfl, rfl⟩
    obtain ⟨led1, h1, h2, h3, h4⟩ := ih led2 hl2
    refine ⟨led1, ?_, h2, by rw [h3, hc2], by rw [h4, ht2]⟩
    simp only [run_irqs, hirq, h1]

/-! ## Telemetry after sequential toggles -/

/-- C1: on a freshly bound handle (guard released, both counters zero), any `N ≥ 1` toggle
calls run one after the other with non-negative measured durations, `N` and the sum of the
durations below `2^64`, all return, and the status report read afterwards shows the count `N`
and the average `(d1 + ... + dN) / N` in integer division. -/
theorem C1_toggles_then_report (led : mtk_led) (cs : List StoreCall)
    (hlock : led.lock = false) (hcount : led.toggle_count = 0)
    (htotal : led.total_latency_ns = 0) (hN : 1 ≤ cs.length)
    (hdur : ∀ c ∈ cs, 0 ≤ c.dur) (hlen : cs.length < 2 ^ 64)
    (hsum : (cs.map StoreCall.dur).sum < 2 ^ 64) :
    ∃ led1 r, run_toggles led cs = some led1 ∧ toggle_show led1 = some (r, led1) ∧
      r.count = cs.length ∧ r.avg = (cs.map StoreCall.dur).sum.toNat / cs.length := by
  obtain ⟨led1, h1, _, h3, h4⟩ := run_toggles_nowrap cs led hlock hdur
    (by rw [hcount]; omega) (by rw [htotal]; simpa using hsum)
  rw [hcount, Nat.zero_add] at h3
  rw [htotal] at h4
  have h5 : led1.total_latency_ns = (cs.map StoreCall.dur).sum.toNat := by
    have : (led1.total_latency_ns : Int) = (cs.map StoreCall.dur).sum := by simpa using h4
    omega
  have hne : led1.toggle_count ≠ 0 := by omega
  refine ⟨led1, _, h1, toggle_show_eq led1, h3, ?_⟩
  have hne2 : ¬ cs.length = 0 := by omega
  simp only [ne_eq, h5, h3, hne2, not_false_eq_true, if_true]

/-- C1, scenario: three toggles with durations 100, 200 and 300 ns on the freshly allocated
handle leave a report of `(3, 200)`. -/
theorem C1_toggles_then_report_witness :
    ∃ led1 r, run_toggles kzalloc_led scenario_calls = some led1 ∧
      toggle_show led1 = some (r, led1) ∧ r.count = 3 ∧ r.avg = 200 := by
  obtain ⟨led1, r, h1, h2, h3, h4⟩ := C1_toggles_then_report kzalloc_led scenario_calls
    rfl rfl rfl (by decide) (by decide) (by decide) (by decide)
  exact ⟨led1, r, h1, h2, h3, h4⟩

/-- C2: for every handle state the status report returns, hands back the count unchanged
and the average `total_latency_ns / toggle_count` when the count is positive and `0` when it
is zero; the division is never reached with a zero divisor (the report is `some`), and the
state it leaves is the state it found. -/
theorem C2_report (led : mtk_led) :
    ∃ r, toggle_show led = some (r, led) ∧ r.count = led.toggle_count ∧
      r.avg = (if 0 < led.toggle_count then led.total_latency_ns / led.toggle_count else 0) ∧
      r.buf = "Toggles: " ++ toString r.count ++ "\nAvg latency(ns): " ++ toString r.avg
        ++ "\n" := by
  refine ⟨_, toggle_show_eq led, rfl, ?_, rfl⟩
  by_cases h : led.toggle_count = 0
  · simp [h]
  · have : 0 < led.toggle_count := Nat.pos_of_ne_zero h
    simp [h, this]

/-! ## Interrupt handler -/

/-- C3: entered with the guard released, for every value `s` delivered by the
interrupt-status register (offset 0x0C) the interrupt handler returns `IRQ_HANDLED` with the
guard released, having read that register once and performed exactly one register write, of
the value 1 to offset 0x0C, when bit 0 of `s` is set, and no register write when bit 0 is
clear, whatever the other bits are. -/
theorem C3_irq_ack (led : mtk_led) (s : Nat) (hlock : led.lock = false) :
    ∃ led1, mtk_led_irq led s = some (irqreturn_t.IRQ_HANDLED, led1) ∧ led1.lock = false ∧
      led1.regmap = led.regmap ++ RegOp.read 0x0C (s % 2 ^ 32) ::
        (if s % 2 = 1 then [RegOp.write 0x0C 1] else []) ∧
      reg_writes led1.regmap = reg_writes led.regmap ++
        (if s % 2 = 1 then [(0x0C, 1)] else []) := by
  refine ⟨_, mtk_led_irq_eq led s hlock, hlock, rfl, ?_⟩
  show reg_writes (led.regmap ++ _) = _
  rw [reg_writes_append]
  by_cases h : s % 2 = 1 <;> simp [h, reg_writes, LED_INT_STATUS]

/-- C3, at a concrete input: status `0xFFFFFFFF` (bit 0 set) on the fresh handle gives one
write of 1 to offset 0x0C. -/
theorem C3_irq_ack_witness :
    ∃ led1, mtk_led_irq kzalloc_led 0xFFFFFFFF = some (irqreturn_t.IRQ_HANDLED, led1) ∧
      led1.lock = false ∧ reg_writes led1.regmap = [(0x0C, 1)] := by
  obtain ⟨led1, h1, h2, _, h4⟩ := C3_irq_ack kzalloc_led 0xFFFFFFFF rfl
  exact ⟨led1, h1, h2, by simpa [kzalloc_led, reg_writes] using h4⟩

/-! ## Frame: what leaves the telemetry alone -/

/-- C10: from a handle with the guard released, any number of runs of the interrupt
handler, whatever the interrupt-status values, return and leave `toggle_count` and
`total_latency_ns` unchanged; suspend, resume, and suspend followed by resume leave both
counters unchanged whatever `clk_prepare_enable` returns. -/
theorem C10_telemetry_frame (led : mtk_led) (ss : List Nat) (rc : Int)
    (hlock : led.lock = false) :
    (∃ led1, run_irqs led ss = some led1 ∧ led1.toggle_count = led.toggle_count ∧
      led1.total_latency_ns = led.total_latency_ns) ∧
    ((mtk_led_suspend led).2.toggle_count = led.toggle_count ∧
      (mtk_led_suspend led).2.total_latency_ns = led.total_latency_ns) ∧
    ((mtk_led_resume led rc).2.toggle_count = led.toggle_count ∧
      (mtk_led_resume led rc).2.total_latency_ns = led.total_latency_ns) ∧
    ((mtk_led_resume (mtk_led_suspend led).2 rc).2.toggle_count = led.toggle_count ∧
      (mtk_led_resume (mtk_led_suspend led).2 rc).2.total_latency_ns
        = led.total_latency_ns) := by
  refine ⟨?_, ⟨rfl, rfl⟩, ⟨rfl, rfl⟩, ⟨rfl, rfl⟩⟩
  obtain ⟨led1, h1, _, h3, h4⟩ := run_irqs_frame ss led hlock
  exact ⟨led1, h1, h3, h4⟩

/-- C10, at a concrete input: after the scenario's three toggles, three interrupts and a
failing resume leave the counters at 3 and 600. -/
theorem C10_telemetry_frame_witness :
    (∃ led1, run_irqs
        { kzalloc_led with toggle_count := 3, total_latency_ns := 600 } [1, 1, 0]
          = some led1 ∧ led1.toggle_count = 3 ∧ led1.total_latency_ns = 600) ∧
    (mtk_led_resume (mtk_led_suspend
        { kzalloc_led with toggle_count := 3, total_latency_ns := 600 }).2 (-5)).2.toggle_count
          = 3 :=
  have h := C10_telemetry_frame
    { kzalloc_led with toggle_count := 3, total_latency_ns := 600 } [1, 1, 0] (-5) rfl
  ⟨h.1, h.2.2.2.1⟩

/-! ## Bind -/

theorem probe_all_ok (env : ProbeEnv) (h : env.all_ok = true) :
    mtk_led_probe env = (0, some
      { dev := [DevOp.set_drvdata, DevOp.create_file env.create_file_rc,
                DevOp.pm_runtime_enable],
        regmap := [RegOp.write LED_INT_ENABLE 1],
        clk := [ClkOp.prepare_enable 0], irq := env.irq, lock := false,
        toggle_count := 0, total_latency_ns := 0 }) := by
  simp only [ProbeEnv.all_ok, Bool.and_eq_true, decide_eq_true_eq, Bool.not_eq_true',
    ne_eq] at h
  obtain ⟨⟨⟨⟨⟨⟨h1, h2⟩, h3⟩, h4⟩, h5⟩, h6⟩, h7⟩ := h
  have h6n : ¬ env.irq < 0 := by omega
  simp [mtk_led_probe, h1, h2, h3, h4, h5, h6n, h7, kzalloc_led, clk_prepare_enable,
    regmap_write, platform_set_drvdata, device_create_file, pm_runtime_enable, LED_INT_BIT,
    BIT]

/-- The value `mtk_led_probe` returns does not depend on what `clk_prepare_enable` returned. -/
theorem probe_ret_ignores_clk_enable (env : ProbeEnv) (rc : Int) :
    (mtk_led_probe { env with clk_enable_rc := rc }).1 = (mtk_led_probe env).1 := by
  simp only [mtk_led_probe]
  split_ifs <;> rfl

/-- A failure before the clock is enabled (allocation, register window, regmap, clock
resolution) leaves no call on the clock, no register write and nothing published. -/
theorem probe_early_failure_clean (env : ProbeEnv)
    (h : env.led = 0 ∨ IS_ERR env.base = true ∨ IS_ERR env.regmap = true ∨
      IS_ERR env.clk = true) :
    (mtk_led_probe env).1 < 0 ∧
      ∀ led, (mtk_led_probe env).2 = some led →
        led.clk = [] ∧ led.regmap = [] ∧ published led = false := by
  have herr : ∀ p : Int, IS_ERR p = true → PTR_ERR p < 0 := by
    intro p hp
    simp only [IS_ERR, decide_eq_true_eq] at hp
    exact hp.2
  simp only [mtk_led_probe]
  split_ifs with h1 h2 h3 h4
  · exact ⟨by simp [ENOMEM], by intro led hl; cases hl⟩
  · exact ⟨herr _ h2, by intro led hl; cases hl; exact ⟨rfl, rfl, rfl⟩⟩
  · exact ⟨herr _ h3, by intro led hl; cases hl; exact ⟨rfl, rfl, rfl⟩⟩
  · exact ⟨herr _ h4, by intro led hl; cases hl; exact ⟨rfl, rfl, rfl⟩⟩
  all_goals simp_all

/-! ## Clock balance -/

theorem clk_balance_append (a b : List ClkOp) :
    clk_balance (a ++ b) = clk_balance a + clk_balance b := by
  induction a with
  | nil => simp [clk_balance]
  | cons x a ih => cases x <;> simp [clk_balance, ih] <;> omega

theorem life_balance (ops : List LifeOp) :
    ∀ (led : mtk_led) (st st1 : LifeState), (∀ op ∈ ops, op.clock_ok = true) →
      spec_run false st ops = some st1 → clk_balance led.clk = spec_balance st →
      clk_balance (life_run led ops).clk = spec_balance st1 := by
  induction ops with
  | nil =>
    intro led st st1 _ hs hb
    simp only [spec_run, Option.some.injEq] at hs
    subst hs
    exact hb
  | cons op ops ih =>
    intro led st st1 hok hs hb
    have hop : op.clock_ok = true := hok op (List.mem_cons_self _ _)
    have hrest : ∀ x ∈ ops, x.clock_ok = true := fun x hx => hok x (List.mem_cons_of_mem _ hx)
    simp only [spec_run] at hs
    cases hn : spec_next false st op with
    | none => simp [hn] at hs
    | some st2 =>
      simp only [hn] at hs
      have hstep : clk_balance (life_step led op).clk = spec_balance st2 := by
        cases st with
        | Unbound => cases op <;> simp [spec_next] at hn
        | Active =>
          cases op with
          | suspend =>
            simp only [spec_next, Option.some.injEq] at hn
            subst hn
            simp only [life_step, mtk_led_suspend, clk_disable_unprepare, clk_balance_append,
              hb, spec_balance, clk_balance]
            omega
          | resume rc => simp [spec_next] at hn
          | unbind =>
            simp only [spec_next, Option.some.injEq] at hn
            subst hn
            simp only [life_step, mtk_led_remove, device_remove_file, pm_runtime_disable,
              clk_disable_unprepare, clk_balance_append, hb, spec_balance, clk_balance]
            omega
        | Suspended =>
          cases op with
          | suspend => simp [spec_next] at hn
          | resume rc =>
            have hrc : rc = 0 := by simpa [LifeOp.clock_ok] using hop
            subst hrc
            simp only [spec_next, if_true, Option.some.injEq] at hn
            subst hn
            simp only [life_step, mtk_led_resume, clk_prepare_enable, clk_balance_append, hb,
              spec_balance, clk_balance]
            omega
          | unbind => simp [spec_next] at hn
      exact ih (life_step led op) st2 st1 hrest hs hstep

/-! ## Steps of a toggle -/

/-- A caller running alone from a released guard finishes in eleven steps and leaves the
state `toggle_store` returns. -/
theorem solo_run_eq_toggle_store (led : mtk_led) (c : StoreCall) (h : led.lock = false) :
    ∃ led1, toggle_store led c = some (ssize_t c.count, led1) ∧
      (solo_run 11 led (Thread.init c)).1 = led1 ∧
      (solo_run 11 led (Thread.init c)).2.pc = Pc.done := by
  refine ⟨_, toggle_store_eq led c h, ?_, ?_⟩ <;>
    simp [solo_run, store_step, Thread.init, pm_runtime_get_sync, spin_lock_irqsave, h,
      regmap_write, spin_unlock_irqrestore, pm_runtime_put, StoreCall.dur]

/-- The steps of a toggle and the state of the guard at each, from any state with the guard
released. -/
theorem solo_trace_eq (led : mtk_led) (c : StoreCall) (h : led.lock = false) :
    solo_trace 12 led (Thread.init c) =
      [(Pc.pm_get, false), (Pc.t_start, false), (Pc.lock, false), (Pc.write, true),
       (Pc.unlock, true), (Pc.t_end, false), (Pc.ld_count, false), (Pc.st_count, false),
       (Pc.ld_total, false), (Pc.st_total, false), (Pc.pm_put, false)] := by
  simp [solo_trace, store_step, Thread.init, pm_runtime_get_sync, spin_lock_irqsave, h,
    regmap_write, spin_unlock_irqrestore, pm_runtime_put]

/-! ## Bind failures -/

/-- C4, bind failing after the clock was enabled: when interrupt-line resolution fails (and
likewise when handler installation fails) `mtk_led_probe` returns the error with the handle
unpublished and the interrupt-enable register unwritten, but with one `clk_prepare_enable`
and no `clk_disable_unprepare`: the clock stays prepared and enabled.  When bind
fails at clock resolution, nothing is held. -/
theorem C4_probe_failure_leaves_clock_enabled :
    (∃ led, mtk_led_probe env_irq_fails = (-6, some led) ∧
      led.clk = [ClkOp.prepare_enable 0] ∧ clk_balance led.clk = 1 ∧
      published led = false ∧ reg_writes led.regmap = []) ∧
    (∃ led, mtk_led_probe env_request_irq_fails = (-EINVAL, some led) ∧
      led.clk = [ClkOp.prepare_enable 0] ∧ clk_balance led.clk = 1 ∧
      published led = false ∧ reg_writes led.regmap = []) ∧
    (∃ led, mtk_led_probe env_clk_get_fails = (-2, some led) ∧
      led.clk = [] ∧ clk_balance led.clk = 0 ∧
      published led = false ∧ reg_writes led.regmap = []) := by
  refine ⟨⟨_, rfl, rfl, rfl, rfl, rfl⟩, ⟨_, rfl, rfl, rfl, rfl, rfl⟩, ⟨_, rfl, rfl, rfl, rfl, rfl⟩⟩

/-- C5, bind with a failing clock enable: with every other step succeeding and
`clk_prepare_enable` returning `-EIO`, `mtk_led_probe` returns 0 (success), writes the
interrupt-enable register and publishes the handle. -/
theorem C5_probe_succeeds_when_clk_enable_fails :
    ∃ led, mtk_led_probe env_clk_enable_fails = (0, some led) ∧
      led.clk = [ClkOp.prepare_enable (-5)] ∧ published led = true ∧
      reg_writes led.regmap = [(0x10, 1)] := by
  refine ⟨_, rfl, rfl, ?_, rfl⟩
  decide

/-! ## Toggle with a failing activation -/

/-- C6 as stated fails: on the fresh handle a toggle whose activation fails (`-EACCES`)
returns its byte count 2, not an error, writes 1 to the toggle register (offset 0x08) and
moves `toggle_count` from 0 to 1 and `total_latency_ns` from 0 to 150. -/
theorem C6_counterexample :
    call_pm_fails.pm_rc < 0 ∧
    ∃ led1, toggle_store kzalloc_led call_pm_fails = some (2, led1) ∧
      led1.toggle_count = 1 ∧ led1.total_latency_ns = 150 ∧
      reg_writes led1.regmap = [(0x08, 1)] ∧
      kzalloc_led.toggle_count = 0 ∧ kzalloc_led.total_latency_ns = 0 ∧
      reg_writes kzalloc_led.regmap = [] := by
  refine ⟨by decide, _, rfl, rfl, rfl, rfl, rfl, rfl, rfl⟩

/-- C6 amended: from every handle state with the guard released, a toggle whose
power-state activation fails is not turned into an error and is carried out in full.  The
activation result is dropped: the call requests the activation, writes 1 to the toggle
register once (guard taken and released again), adds 1 to `toggle_count` and the measured
duration to `total_latency_ns` (both modulo `2^64`), releases the activation request with
`pm_runtime_put`, touches nothing else, and returns the byte count converted to `ssize_t`:
the count itself, not negative, whenever it is below `2^63`.  Return value and state are
those of a successful activation, the logged activation result apart. -/
theorem C6_toggle_ignores_activation (led : mtk_led) (c : StoreCall)
    (hlock : led.lock = false) (_hfail : c.pm_rc < 0) :
    ∃ led1, toggle_store led c = some (ssize_t c.count, led1) ∧
      led1.dev = led.dev ++ [DevOp.pm_runtime_get_sync c.pm_rc, DevOp.pm_runtime_put] ∧
      led1.regmap = led.regmap ++ [RegOp.write 0x08 1] ∧
      reg_writes led1.regmap = reg_writes led.regmap ++ [(0x08, 1)] ∧
      led1.clk = led.clk ∧ led1.irq = led.irq ∧ led1.lock = false ∧
      led1.toggle_count = (led.toggle_count + 1) % 2 ^ 64 ∧
      led1.total_latency_ns = u64 ((led.total_latency_ns : Int) + c.dur) ∧
      (c.count < 2 ^ 63 → ssize_t c.count = c.count ∧ 0 ≤ ssize_t c.count) ∧
      toggle_store led { c with pm_rc := 0 } = some (ssize_t c.count,
        { led1 with dev := led.dev ++ [DevOp.pm_runtime_get_sync 0, DevOp.pm_runtime_put] }) := by
  refine ⟨_, toggle_store_eq led c hlock, rfl, rfl, ?_, rfl, rfl, rfl, rfl, rfl, ?_, ?_⟩
  · show reg_writes (led.regmap ++ _) = _
    rw [reg_writes_append]
    rfl
  · intro hc
    have h1 : c.count % 2 ^ 64 = c.count := Nat.mod_eq_of_lt (by omega)
    have h2 : ssize_t c.count = c.count := by simp only [ssize_t, h1, hc, if_true]
    exact ⟨h2, by rw [h2]; exact Int.ofNat_nonneg _⟩
  · rw [toggle_store_eq _ _ hlock]
    rfl

/-- C6 amended, at a concrete input: the toggle `call_pm_fails` (activation fails with
`-EACCES`, byte count 2, duration 150 ns) on the fresh handle returns 2, has requested and
released the activation, written the toggle register and moved the counters to 1 and 150. -/
theorem C6_toggle_ignores_activation_witness :
    ∃ led1, toggle_store kzalloc_led call_pm_fails = some (2, led1) ∧
      led1.dev = [DevOp.pm_runtime_get_sync (-13), DevOp.pm_runtime_put] ∧
      led1.regmap = [RegOp.write 0x08 1] ∧ led1.lock = false ∧
      led1.toggle_count = 1 ∧ led1.total_latency_ns = 150 := by
  obtain ⟨led1, h1, h2, h3, _, _, _, h7, h8, h9, _⟩ :=
    C6_toggle_ignores_activation kzalloc_led call_pm_fails rfl (by decide)
  exact ⟨led1, h1, h2, h3, h7, h8, h9⟩

/-! ## Guard discipline and concurrent toggles -/

/-- C7, the code on one toggle followed by one status report, from the fresh handle: the
guard is held only at the register write and at the unlock; both stores to `toggle_count`
and `total_latency_ns` start with the guard released, and the status report reads the
counters without ever acquiring it. -/
theorem C7_counter_steps_run_unguarded :
    solo_trace 12 kzalloc_led (Thread.init call_plain) =
      [(Pc.pm_get, false), (Pc.t_start, false), (Pc.lock, false), (Pc.write, true),
       (Pc.unlock, true), (Pc.t_end, false), (Pc.ld_count, false), (Pc.st_count, false),
       (Pc.ld_total, false), (Pc.st_total, false), (Pc.pm_put, false)] ∧
    (solo_trace 12 kzalloc_led (Thread.init call_plain)).filter (fun e => e.1.counter_write) =
      [(Pc.st_count, false), (Pc.st_total, false)] ∧
    (show_trace 6 (solo_run 11 kzalloc_led (Thread.init call_plain)).1 ShowThread.init).filter
        (fun e => e.1.counter_access) =
      [(ShowPc.rd_count, false), (ShowPc.test_count, false), (ShowPc.rd_div, false)] := by
  refine ⟨rfl, rfl, rfl⟩

/-- C8, two overlapping toggles: two callers start from `toggle_count = 0`; caller 0
loads the count, caller 1 then runs its whole call, caller 0 stores its stale value plus
one.  Both calls have returned and `toggle_count` is 1, not 2.  Run one after the other,
the same two calls leave 2. -/
theorem C8_concurrent_toggles_lose_increment :
    (∃ led1 ts1, run_sched kzalloc_led race_threads race_sched = some (led1, ts1) ∧
      ts1.map Thread.pc = [Pc.done, Pc.done] ∧ led1.lock = false ∧
      led1.toggle_count = 1 ∧ led1.total_latency_ns = 300) ∧
    (∃ led1 ts1, run_sched kzalloc_led race_threads serial_sched = some (led1, ts1) ∧
      ts1.map Thread.pc = [Pc.done, Pc.done] ∧ led1.toggle_count = 2 ∧
      led1.total_latency_ns = 300) := by
  refine ⟨⟨_, _, rfl, rfl, rfl, rfl, rfl⟩, ⟨_, _, rfl, rfl, rfl, rfl⟩⟩

/-! ## Lifecycle and the clock -/

/-- C9 as stated fails: after a successful bind, suspend followed by unbind is permitted by
the state machine (Active, Suspended, Unbound) and leaves the handle Unbound with a clock
balance of -1, not 0: one prepare+enable, two disable+unprepare. -/
theorem C9_counterexample :
    ∃ led, mtk_led_probe env_ok = (0, some led) ∧ env_ok.all_ok = true ∧
      spec_run true LifeState.Active [LifeOp.suspend, LifeOp.unbind]
        = some LifeState.Unbound ∧
      (life_run led [LifeOp.suspend, LifeOp.unbind]).clk =
        [ClkOp.prepare_enable 0, ClkOp.disable_unprepare, ClkOp.disable_unprepare] ∧
      clk_balance (life_run led [LifeOp.suspend, LifeOp.unbind]).clk = -1 := by
  refine ⟨_, rfl, ?_, rfl, rfl, rfl⟩
  decide

/-- C9 amended: after a bind in which every step succeeds the clock balance is 1, and for
every sequence of suspend / resume / unbind requests with successful clock operations that
the state machine permits when unbind is issued from Active only, the balance after the
sequence is 1 if the handle is Active and 0 if it is Suspended or Unbound; from Active,
suspend followed by resume returns the balance to 1. -/
theorem C9_clock_balance (env : ProbeEnv) (ops : List LifeOp) (st : LifeState)
    (hbind : env.all_ok = true) (hclk : ∀ op ∈ ops, op.clock_ok = true)
    (hspec : spec_run false LifeState.Active ops = some st) :
    ∃ led, mtk_led_probe env = (0, some led) ∧ clk_balance led.clk = 1 ∧
      clk_balance (life_run led ops).clk
        = (if st = LifeState.Active then 1 else 0) ∧
      (st = LifeState.Active →
        clk_balance (life_run (life_run led ops) [LifeOp.suspend]).clk = 0 ∧
        clk_balance (life_run (life_run led ops) [LifeOp.suspend, LifeOp.resume 0]).clk = 1) := by
  obtain ⟨led, hp, hb⟩ : ∃ led, mtk_led_probe env = (0, some led) ∧
      clk_balance led.clk = spec_balance LifeState.Active :=
    ⟨_, probe_all_ok env hbind, rfl⟩
  refine ⟨led, hp, hb, ?_, ?_⟩
  · rw [life_balance ops led LifeState.Active st hclk hspec hb]
    cases st <;> rfl
  · intro hst
    subst hst
    have h := life_balance ops led LifeState.Active LifeState.Active hclk hspec hb
    constructor
    · exact life_balance [LifeOp.suspend] _ LifeState.Active LifeState.Suspended
        (by decide) rfl h
    · exact life_balance [LifeOp.suspend, LifeOp.resume 0] _ LifeState.Active
        LifeState.Active (by decide) rfl h

/-- C9 amended, at a concrete input: bind, suspend, resume, suspend, resume, unbind. -/
theorem C9_clock_balance_witness :
    ∃ led, mtk_led_probe env_ok = (0, some led) ∧ clk_balance led.clk = 1 ∧
      clk_balance (life_run led [LifeOp.suspend, LifeOp.resume 0, LifeOp.suspend,
        LifeOp.resume 0, LifeOp.unbind]).clk = 0 := by
  obtain ⟨led, h1, h2, h3, _⟩ := C9_clock_balance env_ok
    [LifeOp.suspend, LifeOp.resume 0, LifeOp.suspend, LifeOp.resume 0, LifeOp.unbind]
    LifeState.Unbound (by decide) (by decide) rfl
  exact ⟨led, h1, h2, h3⟩

end MtkLed
